import Mathlib

/-!
Shallow embedding of `src/bot/yagpt_service.py` (class
`YandexGPTConfigManagerBase`) and proofs of the specified properties.

Python `Optional[str]` fields are embedded as `Option String`; Python
truthiness of such a field (`if self.x:`) is `truthy`; a raised
`ValueError msg` is embedded as `Except.error msg`; a normal return of a
string is `Except.ok`.
-/

/-- Python truthiness of an `Optional[str]` value: `None` and `""` are
falsy, every other string is truthy. -/
def truthy : Option String → Bool
  | none => false
  | some s => s != ""

/-- Python `str(x)` for an `Optional[str]` value, as used by f-string
interpolation: `None` renders as `"None"`, a string renders as itself. -/
def pyStrOfOpt : Option String → String
  | none => "None"
  | some s => s

/-- Python `str(xs)` for a list of strings, as used by f-string
interpolation: elements are rendered with single quotes inside square
brackets, separated by a comma and a space. -/
def pyStrOfList (l : List String) : String :=
  "[" ++ String.intercalate ", " (l.map fun s => "'" ++ s ++ "'") ++ "]"

/-- Python `x in l` for `x : Optional[str]` against a list of strings:
`None` equals no string, so it is never a member. -/
def optMem (o : Option String) (l : List String) : Bool :=
  match o with
  | none => false
  | some s => l.contains s

/-- `available_models` from line 9 of the source. -/
def available_models : List String := ["yandexgpt", "yandexgpt-lite", "summarization"]

/-- The class `YandexGPTConfigManagerBase`: four optional string fields,
stored verbatim by `__init__`. -/
structure YandexGPTConfigManagerBase where
  model_type : Option String
  catalog_id : Option String
  iam_token : Option String
  api_key : Option String
  deriving DecidableEq, Repr

/-- `__init__` (lines 16-40 of the source): stores the four arguments
verbatim into the four fields, with no validation and no possibility of
failure (it is a total function). -/
def YandexGPTConfigManagerBase.init
    (model_type catalog_id iam_token api_key : Option String) :
    YandexGPTConfigManagerBase :=
  { model_type := model_type
    catalog_id := catalog_id
    iam_token := iam_token
    api_key := api_key }

/-- `completion_request_authorization_field` (lines 42-64 of the source). -/
def YandexGPTConfigManagerBase.completion_request_authorization_field
    (self : YandexGPTConfigManagerBase) : Except String String :=
  if truthy self.iam_token then
    .ok ("Bearer " ++ pyStrOfOpt self.iam_token)
  else if truthy self.api_key then
    .ok ("Api-Key " ++ pyStrOfOpt self.api_key)
  else
    .error "IAM token or API key is not set"

/-- `completion_request_catalog_id_field` (lines 66-85 of the source). -/
def YandexGPTConfigManagerBase.completion_request_catalog_id_field
    (self : YandexGPTConfigManagerBase) : Except String String :=
  if truthy self.catalog_id then
    .ok (pyStrOfOpt self.catalog_id)
  else
    .error "Catalog ID is not set"

/-- The message of the unsupported-model error raised at line 106 of the
source, rendered the way the Python f-string renders it. -/
def unsupportedModelMsg (model_type : Option String) : String :=
  "Model type " ++ pyStrOfOpt model_type ++
    " is not supported. Supported values: " ++ pyStrOfList available_models

/-- `completion_request_model_type_uri_field` (lines 87-112 of the
source): first the allow-list membership check, then the set-ness check
of both `model_type` and `catalog_id`. -/
def YandexGPTConfigManagerBase.completion_request_model_type_uri_field
    (self : YandexGPTConfigManagerBase) : Except String String :=
  if !(optMem self.model_type available_models) then
    .error (unsupportedModelMsg self.model_type)
  else if truthy self.model_type && truthy self.catalog_id then
    .ok ("gpt://" ++ pyStrOfOpt self.catalog_id ++ "/" ++
      pyStrOfOpt self.model_type ++ "/latest")
  else
    .error "Model type or catalog ID is not set"

/-- `completion_request_authorization_field` in explicit state-passing
form: the method receives `self`, reads its fields, and returns the
result together with the object state after the call. The method body
contains no assignment to any attribute, so the state it returns is the
state it received. -/
def YandexGPTConfigManagerBase.authorization_field_state
    (self : YandexGPTConfigManagerBase) :
    Except String String × YandexGPTConfigManagerBase :=
  let tok := self.iam_token
  let key := self.api_key
  if truthy tok then (.ok ("Bearer " ++ pyStrOfOpt tok), self)
  else if truthy key then (.ok ("Api-Key " ++ pyStrOfOpt key), self)
  else (.error "IAM token or API key is not set", self)

/-- `completion_request_catalog_id_field` in explicit state-passing form;
no attribute is assigned in the body. -/
def YandexGPTConfigManagerBase.catalog_id_field_state
    (self : YandexGPTConfigManagerBase) :
    Except String String × YandexGPTConfigManagerBase :=
  let cat := self.catalog_id
  if truthy cat then (.ok (pyStrOfOpt cat), self)
  else (.error "Catalog ID is not set", self)

/-- `completion_request_model_type_uri_field` in explicit state-passing
form; no attribute is assigned in the body. -/
def YandexGPTConfigManagerBase.model_type_uri_field_state
    (self : YandexGPTConfigManagerBase) :
    Except String String × YandexGPTConfigManagerBase :=
  let mt := self.model_type
  let cat := self.catalog_id
  if !(optMem mt available_models) then
    (.error (unsupportedModelMsg mt), self)
  else if truthy mt && truthy cat then
    (.ok ("gpt://" ++ pyStrOfOpt cat ++ "/" ++ pyStrOfOpt mt ++ "/latest"), self)
  else
    (.error "Model type or catalog ID is not set", self)

/-- Every member of the allow-list is a truthy (non-empty) string, so a
`model_type` that passes the membership check also passes the Python
truthiness test. -/
lemma truthy_of_optMem_available (mt : Option String)
    (h : optMem mt available_models = true) : truthy mt = true := by
  match mt with
  | none => simp [optMem] at h
  | some s =>
    have hs : s ∈ available_models := by
      simpa [optMem, List.elem_iff] using h
    fin_cases hs <;> decide

/-- The unsupported-model message is never the not-set message: it is
strictly longer, whatever `model_type` is interpolated into it. -/
lemma unsupportedModelMsg_ne_not_set (mt : Option String) :
    unsupportedModelMsg mt ≠ "Model type or catalog ID is not set" := by
  intro h
  have hlen := congrArg String.length h
  have h1 : ("Model type ").length = 11 := by decide
  have h2 : (" is not supported. Supported values: ").length = 37 := by decide
  have h3 : (pyStrOfList available_models).length = 48 := by decide
  have h4 : ("Model type or catalog ID is not set").length = 35 := by decide
  simp only [unsupportedModelMsg, String.length_append, h1, h2, h3, h4] at hlen
  omega

/-- The stateful rendering of the authorization accessor returns exactly
the pure accessor's result, paired with the unchanged object. -/
lemma authorization_field_state_eq (c : YandexGPTConfigManagerBase) :
    c.authorization_field_state = (c.completion_request_authorization_field, c) := by
  rcases h1 : truthy c.iam_token <;> rcases h2 : truthy c.api_key <;>
    simp [YandexGPTConfigManagerBase.authorization_field_state,
      YandexGPTConfigManagerBase.completion_request_authorization_field, h1, h2]

/-- The stateful rendering of the catalog-id accessor returns exactly the
pure accessor's result, paired with the unchanged object. -/
lemma catalog_id_field_state_eq (c : YandexGPTConfigManagerBase) :
    c.catalog_id_field_state = (c.completion_request_catalog_id_field, c) := by
  rcases h1 : truthy c.catalog_id <;>
    simp [YandexGPTConfigManagerBase.catalog_id_field_state,
      YandexGPTConfigManagerBase.completion_request_catalog_id_field, h1]

/-- The stateful rendering of the model-uri accessor returns exactly the
pure accessor's result, paired with the unchanged object. -/
lemma model_type_uri_field_state_eq (c : YandexGPTConfigManagerBase) :
    c.model_type_uri_field_state = (c.completion_request_model_type_uri_field, c) := by
  rcases h1 : optMem c.model_type available_models <;>
    rcases h2 : truthy c.model_type <;> rcases h3 : truthy c.catalog_id <;>
    simp [YandexGPTConfigManagerBase.model_type_uri_field_state,
      YandexGPTConfigManagerBase.completion_request_model_type_uri_field, h1, h2, h3]

/-- Claim C1: whenever `iam_token` is a non-empty string, the
authorization accessor returns exactly `"Bearer " ++ iam_token`,
whatever the other three fields are. -/
theorem authorization_field_bearer_of_iam (mt ci ak : Option String)
    (t : String) (h : t ≠ "") :
    (YandexGPTConfigManagerBase.init mt ci (some t)
        ak).completion_request_authorization_field =
      .ok ("Bearer " ++ t) := by
  simp [YandexGPTConfigManagerBase.init,
    YandexGPTConfigManagerBase.completion_request_authorization_field,
    truthy, pyStrOfOpt, h]

/-- Witness for C1 at `iam_token = "tok"`, `api_key = "key"`. -/
theorem authorization_field_bearer_of_iam_witness :
    "tok" ≠ "" ∧
    (YandexGPTConfigManagerBase.init none none (some "tok")
        (some "key")).completion_request_authorization_field =
      .ok ("Bearer " ++ "tok") :=
  ⟨by decide, authorization_field_bearer_of_iam none none (some "key") "tok" (by decide)⟩

/-- Claim C2: whenever `iam_token` is unset or empty and `api_key` is a
non-empty string, the authorization accessor returns exactly
`"Api-Key " ++ api_key`. -/
theorem authorization_field_api_key_of_no_iam (mt ci it : Option String)
    (k : String) (h1 : truthy it = false) (h2 : k ≠ "") :
    (YandexGPTConfigManagerBase.init mt ci it
        (some k)).completion_request_authorization_field =
      .ok ("Api-Key " ++ k) := by
  have hk : truthy (some k) = true := by simp [truthy, h2]
  simp [YandexGPTConfigManagerBase.init,
    YandexGPTConfigManagerBase.completion_request_authorization_field,
    pyStrOfOpt, h1, hk]

/-- Witness for C2 at `iam_token = None`, `api_key = "key"`. -/
theorem authorization_field_api_key_of_no_iam_witness :
    truthy none = false ∧ "key" ≠ "" ∧
    (YandexGPTConfigManagerBase.init none none none
        (some "key")).completion_request_authorization_field =
      .ok ("Api-Key " ++ "key") :=
  ⟨rfl, by decide,
    authorization_field_api_key_of_no_iam none none none "key" rfl (by decide)⟩

/-- Claim C3: the authorization accessor fails exactly when both
credentials are falsy, and in every other configuration it returns a
string. -/
theorem authorization_field_error_iff (c : YandexGPTConfigManagerBase) :
    ((∃ e, c.completion_request_authorization_field = .error e) ↔
      truthy c.iam_token = false ∧ truthy c.api_key = false) ∧
    (truthy c.iam_token = true ∨ truthy c.api_key = true →
      ∃ s, c.completion_request_authorization_field = .ok s) := by
  rcases h1 : truthy c.iam_token <;> rcases h2 : truthy c.api_key <;>
    simp [YandexGPTConfigManagerBase.completion_request_authorization_field, h1, h2]

/-- Witness for C3 at the all-`None` configuration: both credentials are
falsy and the accessor fails. -/
theorem authorization_field_error_iff_witness :
    ∃ e, (YandexGPTConfigManagerBase.init none none none
        none).completion_request_authorization_field = .error e :=
  (authorization_field_error_iff
      (YandexGPTConfigManagerBase.init none none none none)).1.mpr ⟨rfl, rfl⟩

/-- Claim C4: the catalog-id accessor fails when `catalog_id` is falsy
and otherwise returns the stored string verbatim. -/
theorem catalog_id_field_spec (c : YandexGPTConfigManagerBase) :
    (truthy c.catalog_id = false →
      c.completion_request_catalog_id_field = .error "Catalog ID is not set") ∧
    (∀ s, c.catalog_id = some s → s ≠ "" →
      c.completion_request_catalog_id_field = .ok s) := by
  constructor
  · intro h
    simp [YandexGPTConfigManagerBase.completion_request_catalog_id_field, h]
  · intro s hs hne
    simp [YandexGPTConfigManagerBase.completion_request_catalog_id_field,
      truthy, pyStrOfOpt, hs, hne]

/-- Witness for C4 at `catalog_id = "cat"`. -/
theorem catalog_id_field_spec_witness :
    (YandexGPTConfigManagerBase.init none (some "cat") none
        none).completion_request_catalog_id_field = .ok "cat" :=
  (catalog_id_field_spec
      (YandexGPTConfigManagerBase.init none (some "cat") none none)).2
    "cat" rfl (by decide)

/-- Claim C5: whenever `model_type` (possibly `None`) is outside the
allow-list, the model-uri accessor fails, whatever `catalog_id` is, and
the error message interpolates the unsupported value and the rendered
allow-list; in particular the value appears verbatim inside the
message. -/
theorem model_type_uri_field_unsupported (mt ci it ak : Option String)
    (h : optMem mt available_models = false) :
    (YandexGPTConfigManagerBase.init mt ci it
        ak).completion_request_model_type_uri_field =
      .error (unsupportedModelMsg mt) ∧
    ∃ p q, unsupportedModelMsg mt = p ++ pyStrOfOpt mt ++ q := by
  constructor
  · simp [YandexGPTConfigManagerBase.init,
      YandexGPTConfigManagerBase.completion_request_model_type_uri_field, h]
  · refine ⟨"Model type ",
      " is not supported. Supported values: " ++ pyStrOfList available_models, ?_⟩
    simp [unsupportedModelMsg, String.append_assoc]

/-- Witness for C5 at `model_type = "unknown"`, `catalog_id = "cat123"`:
the call fails and the message contains `"unknown"`. -/
theorem model_type_uri_field_unsupported_witness :
    optMem (some "unknown") available_models = false ∧
    ((YandexGPTConfigManagerBase.init (some "unknown") (some "cat123") none
        none).completion_request_model_type_uri_field =
      .error (unsupportedModelMsg (some "unknown")) ∧
    ∃ p q, unsupportedModelMsg (some "unknown") = p ++ pyStrOfOpt (some "unknown") ++ q) :=
  ⟨by decide,
    model_type_uri_field_unsupported (some "unknown") (some "cat123") none none
      (by decide)⟩

/-- Claim C6: whenever `model_type` is in the allow-list and
`catalog_id` is a non-empty string, the model-uri accessor returns the
formatted URI; in particular it returns `"gpt://cat123/yandexgpt/latest"`
for `"yandexgpt"` and `"cat123"`. -/
theorem model_type_uri_field_formats (it ak : Option String) (m c : String)
    (hm : m ∈ available_models) (hc : c ≠ "") :
    (YandexGPTConfigManagerBase.init (some m) (some c) it
        ak).completion_request_model_type_uri_field =
      .ok ("gpt://" ++ c ++ "/" ++ m ++ "/latest") ∧
    (YandexGPTConfigManagerBase.init (some "yandexgpt") (some "cat123") it
        ak).completion_request_model_type_uri_field =
      .ok "gpt://cat123/yandexgpt/latest" := by
  constructor
  · have hcat : truthy (some c) = true := by simp [truthy, hc]
    fin_cases hm <;>
      simp [YandexGPTConfigManagerBase.init,
        YandexGPTConfigManagerBase.completion_request_model_type_uri_field,
        optMem, available_models, truthy, pyStrOfOpt, hc]
  · rfl

/-- Witness for C6 at `model_type = "yandexgpt"`, `catalog_id = "cat123"`. -/
theorem model_type_uri_field_formats_witness :
    "yandexgpt" ∈ available_models ∧ "cat123" ≠ "" ∧
    (YandexGPTConfigManagerBase.init (some "yandexgpt") (some "cat123") none
        none).completion_request_model_type_uri_field =
      .ok ("gpt://" ++ "cat123" ++ "/" ++ "yandexgpt" ++ "/latest") :=
  ⟨by decide, by decide,
    (model_type_uri_field_formats none none "yandexgpt" "cat123" (by decide)
      (by decide)).1⟩

/-- Claim C7: whenever `model_type` is in the allow-list but
`catalog_id` is unset or empty, the model-uri accessor fails. -/
theorem model_type_uri_field_no_catalog (it ak ci : Option String) (m : String)
    (hm : m ∈ available_models) (hc : truthy ci = false) :
    (YandexGPTConfigManagerBase.init (some m) ci it
        ak).completion_request_model_type_uri_field =
      .error "Model type or catalog ID is not set" := by
  rcases ci with _ | s
  · fin_cases hm <;>
      simp [YandexGPTConfigManagerBase.init,
        YandexGPTConfigManagerBase.completion_request_model_type_uri_field,
        optMem, available_models, truthy]
  · have hs : s = "" := by simpa [truthy] using hc
    subst hs
    fin_cases hm <;>
      simp [YandexGPTConfigManagerBase.init,
        YandexGPTConfigManagerBase.completion_request_model_type_uri_field,
        optMem, available_models, truthy]

/-- Witness for C7 at `model_type = "yandexgpt"`, `catalog_id = None`. -/
theorem model_type_uri_field_no_catalog_witness :
    "yandexgpt" ∈ available_models ∧ truthy none = false ∧
    (YandexGPTConfigManagerBase.init (some "yandexgpt") none none
        none).completion_request_model_type_uri_field =
      .error "Model type or catalog ID is not set" :=
  ⟨by decide, rfl,
    model_type_uri_field_no_catalog none none none "yandexgpt" (by decide) rfl⟩

/-- Claim C8: construction always succeeds (`init` is a total function
performing no validation) and stores each of the four arguments verbatim
in the corresponding field. -/
theorem init_stores_verbatim (a b c d : Option String) :
    (YandexGPTConfigManagerBase.init a b c d).model_type = a ∧
    (YandexGPTConfigManagerBase.init a b c d).catalog_id = b ∧
    (YandexGPTConfigManagerBase.init a b c d).iam_token = c ∧
    (YandexGPTConfigManagerBase.init a b c d).api_key = d :=
  ⟨rfl, rfl, rfl, rfl⟩

/-- Claim C9: each of the three accessors, rendered in state-passing
form, leaves the object (all four fields) unchanged whether it returns a
string or fails, and its result is exactly the pure function of the
current field values (no caching: the result is determined solely by the
fields at call time). -/
theorem accessors_leave_fields_unchanged (c : YandexGPTConfigManagerBase) :
    (c.authorization_field_state.2 = c ∧
     c.catalog_id_field_state.2 = c ∧
     c.model_type_uri_field_state.2 = c) ∧
    (c.authorization_field_state.1 = c.completion_request_authorization_field ∧
     c.catalog_id_field_state.1 = c.completion_request_catalog_id_field ∧
     c.model_type_uri_field_state.1 = c.completion_request_model_type_uri_field) := by
  rw [authorization_field_state_eq, catalog_id_field_state_eq,
    model_type_uri_field_state_eq]
  exact ⟨⟨rfl, rfl, rfl⟩, rfl, rfl, rfl⟩

/-- Claim C10: the membership check runs first, so a falsy `model_type`
(unset or empty) always produces the unsupported-model error, and the
separate not-set error occurs exactly when `model_type` passes the
membership check while `catalog_id` is falsy. -/
theorem model_type_uri_field_branch_order (c : YandexGPTConfigManagerBase) :
    (truthy c.model_type = false →
      c.completion_request_model_type_uri_field =
        .error (unsupportedModelMsg c.model_type)) ∧
    (c.completion_request_model_type_uri_field =
        .error "Model type or catalog ID is not set" ↔
      optMem c.model_type available_models = true ∧
        truthy c.catalog_id = false) := by
  constructor
  · intro h
    have hmem : optMem c.model_type available_models = false := by
      rcases hmt : c.model_type with _ | s
      · rfl
      · rw [hmt] at h
        have hs : s = "" := by simpa [truthy] using h
        subst hs
        decide
    simp [YandexGPTConfigManagerBase.completion_request_model_type_uri_field, hmem]
  · rcases hmem : optMem c.model_type available_models
    · simp [YandexGPTConfigManagerBase.completion_request_model_type_uri_field,
        hmem, unsupportedModelMsg_ne_not_set c.model_type]
    · have hmt := truthy_of_optMem_available c.model_type hmem
      rcases hcat : truthy c.catalog_id <;>
        simp [YandexGPTConfigManagerBase.completion_request_model_type_uri_field,
          hmem, hmt, hcat]

/-- Witness for C10 at `model_type = None`: the failure is the
unsupported-model error, not the not-set error. -/
theorem model_type_uri_field_branch_order_witness :
    (YandexGPTConfigManagerBase.init none (some "cat123") none
        none).completion_request_model_type_uri_field =
      .error (unsupportedModelMsg none) :=
  (model_type_uri_field_branch_order
      (YandexGPTConfigManagerBase.init none (some "cat123") none none)).1 rfl
